import Mathlib

/-!
Verification development for the spawner service (pkg/service/service.go).

The definitions below are a shallow embedding of the Go source.  Vendor
(AWS EKS / IAM) behaviour is modelled either as an explicit state (a list
of clusters, a list of role names) whose describe/list calls are derived
from the state, or as an outcome parameter passed to the embedded control
flow, so that every branch of the Go code is represented.  Go functions
returning `(value, error)` become functions into `Except` or `GoResult`;
a nil-pointer dereference in the Go code is represented by the dedicated
`GoResult.crash` outcome.
-/

deriving instance DecidableEq for Except

namespace Spawner

/-- Outcome of a Go function call: a returned value, a returned error, or a
runtime failure (nil-pointer dereference / index out of range). -/
inductive GoResult (α : Type) where
  | ok (a : α)
  | err (msg : String)
  | crash
deriving Repr, DecidableEq

/-- The fields of an `eks.Cluster` descriptor that the embedded code reads:
its name, its status string and the subnet ids of its VPC config. -/
structure Cluster where
  name : String
  status : String
  subnetIds : List String
deriving Repr, DecidableEq

/-- AWS error model: the code branches only on
`eks.ErrCodeResourceNotFoundException`; every other vendor error is an
opaque message. -/
inductive AwsErr where
  | resourceNotFound
  | other (msg : String)
deriving Repr, DecidableEq

/-- The message carried by an AWS error value. -/
def awsErrMsg : AwsErr → String
  | .resourceNotFound => "ResourceNotFoundException"
  | .other m => m

/-- Embeds `getClusterSpec` over a vendor state: DescribeCluster returns the
cluster with the given name when one exists, and a
ResourceNotFoundException otherwise. -/
def describeCluster (clusters : List Cluster) (name : String) : Except AwsErr Cluster :=
  match clusters.find? (fun c => c.name == name) with
  | some c => Except.ok c
  | none => Except.error AwsErr.resourceNotFound

/-- Embeds the name derivation at the top of `AWSController.CreateCluster`:
`if clusterName = req.ClusterName; len(clusterName) == 0` the name becomes
`fmt.Sprintf("%s-%s", req.Provider, req.Region)`. -/
def deriveClusterName (reqName provider region : String) : String :=
  if reqName.length = 0 then provider ++ "-" ++ region else reqName

/-- Result of one `CreateCluster` call: the response (the dereferenced
`*cluster.Name`, an error, or a crash) and the number of vendor create
calls issued. -/
structure CreateClusterOut where
  result : GoResult String
  creates : Nat
deriving Repr, DecidableEq

/-- Embeds the control flow of `AWSController.CreateCluster` after the name
derivation, parametrised by the outcome of the describe call and of the
create call.  The Go code only handles the ResourceNotFoundException
branch of a describe error; on any other describe error it falls through
with `cluster == nil` and the final `*cluster.Name` dereferences a nil
pointer, which is modelled by `GoResult.crash`. -/
def createClusterGo (describeRes : Except AwsErr Cluster)
    (createRes : Except AwsErr Cluster) : CreateClusterOut :=
  match describeRes with
  | Except.ok c => { result := GoResult.ok c.name, creates := 0 }
  | Except.error AwsErr.resourceNotFound =>
      match createRes with
      | Except.ok c => { result := GoResult.ok c.name, creates := 1 }
      | Except.error e => { result := GoResult.err (awsErrMsg e), creates := 1 }
  | Except.error (AwsErr.other _) => { result := GoResult.crash, creates := 0 }

/-- Modelled from the spec: `createClusterInternal` is not under src/.
Section 4.4 of the spec says that on NotFound the engine issues the vendor
create for the derived name and returns immediately with the cluster in a
creating state. -/
def createClusterInternalModel (name : String) : Cluster :=
  { name := name, status := "CREATING", subnetIds := [] }

/-- One `CreateCluster` call against a vendor state: the describe outcome is
derived from the state, the create (when reached) succeeds and adds the new
cluster to the state. -/
def createClusterStep (clusters : List Cluster) (reqName provider region : String) :
    List Cluster × CreateClusterOut :=
  let name := deriveClusterName reqName provider region
  let out := createClusterGo (describeCluster clusters name)
      (Except.ok (createClusterInternalModel name))
  (if out.creates = 0 then clusters else clusters ++ [createClusterInternalModel name], out)

/-- A value stored in the Go label map `map[string]*string`: either a pointer
to its own string, or a pointer to the caller-label loop variable `v`. -/
inductive LabelVal where
  | ptr (s : String)
  | loopVar
deriving Repr, DecidableEq

/-- Go map assignment `labels[k] = v` on an association-list representation:
replace the binding when the key is present, append it otherwise. -/
def mapInsert (m : List (String × LabelVal)) (k : String) (v : LabelVal) :
    List (String × LabelVal) :=
  if m.any (fun kv => kv.1 == k) then
    m.map (fun kv => if kv.1 == k then (k, v) else kv)
  else m ++ [(k, v)]

/-- Modelled from the spec: the constants package is not under src/; the spec
names the system-reserved label keys as creator, node-name,
node-label-selector, instance-type and type. -/
def CREATOR_LABEL : String := "creator"

/-- Modelled from the spec: the value of the creator system label. -/
def SPAWNER_SERVICE_LABEL : String := "spawner-service"

/-- Modelled from the spec: key of the node-name system label. -/
def NODE_NAME_LABEL : String := "node-name"

/-- Modelled from the spec: key of the node-label-selector system label. -/
def NODE_LABEL_SELECTOR_LABEL : String := "node-label-selector"

/-- Modelled from the spec: key of the instance-type system label. -/
def INSTANCE_LABEL : String := "instance-type"

/-- The caller-supplied node spec fields read by the embedded code
(`pb.NodeSpec`); `Instance` is rendered as `instanceType`, and the label map
as an association list in vendor iteration order. -/
structure NodeSpecReq where
  name : String
  instanceType : String
  diskSize : Int
  gpuEnabled : Bool
  labels : List (String × String)
deriving Repr, DecidableEq

/-- The label map literal at the top of `getNodeSpecFromDefault` and
`getNewNodeGroupSpecFromCluster`: the five system-reserved entries, each a
pointer to its own string. -/
def systemLabels (spec : NodeSpecReq) : List (String × LabelVal) :=
  [(CREATOR_LABEL, LabelVal.ptr SPAWNER_SERVICE_LABEL),
   (NODE_NAME_LABEL, LabelVal.ptr spec.name),
   (NODE_LABEL_SELECTOR_LABEL, LabelVal.ptr spec.name),
   (INSTANCE_LABEL, LabelVal.ptr spec.instanceType),
   ("type", LabelVal.ptr "nodegroup")]

/-- Embeds the donor-label loop `for k, v := range defaultNode.Labels`
followed by `labels[k] = v`: the donor map holds string pointers, so each
copied binding keeps its own value. -/
def addDonorLabels (m : List (String × LabelVal)) (donor : List (String × String)) :
    List (String × LabelVal) :=
  donor.foldl (fun m kv => mapInsert m kv.1 (LabelVal.ptr kv.2)) m

/-- Embeds the caller-label loop `for k, v := range nodeSpec.Labels` followed
by `labels[k] = &v` under Go (pre-1.22) loop-variable semantics: `v` is a
single variable reused across iterations, so every stored pointer aliases
that one variable. -/
def addCallerLabels (m : List (String × LabelVal)) (caller : List (String × String)) :
    List (String × LabelVal) :=
  caller.foldl (fun m kv => mapInsert m kv.1 LabelVal.loopVar) m

/-- Dereference the label map when the request is consumed, after the loops
have finished: a pointer into the caller loop variable yields that
variable's final value, the value of the last iterated caller entry. -/
def derefLabels (m : List (String × LabelVal)) (caller : List (String × String)) :
    List (String × String) :=
  m.map (fun kv => (kv.1,
    match kv.2 with
    | LabelVal.ptr s => s
    | LabelVal.loopVar => ((caller.getLast?).map Prod.snd).getD ""))

/-- The label set built by `getNodeSpecFromDefault`: system labels, then the
donor node group's labels, then the caller's labels, as observed when the
vendor request is serialized. -/
def labelsFromDefault (defaultLabels : List (String × String)) (spec : NodeSpecReq) :
    List (String × String) :=
  derefLabels (addCallerLabels (addDonorLabels (systemLabels spec) defaultLabels) spec.labels)
    spec.labels

/-- The label set built by `getNewNodeGroupSpecFromCluster` (no donor):
system labels, then the caller's labels. -/
def labelsFromCluster (spec : NodeSpecReq) : List (String × String) :=
  derefLabels (addCallerLabels (systemLabels spec) spec.labels) spec.labels

/-- Go map lookup on the rendered label list. -/
def lookupLabel (m : List (String × String)) (k : String) : Option String :=
  (m.find? (fun kv => kv.1 == k)).map Prod.snd

/-- The fields of an `eks.Nodegroup` descriptor read when it is used as the
donor in `getNodeSpecFromDefault`. -/
structure Nodegroup where
  nodegroupName : String
  amiType : String
  capacityType : String
  nodeRole : String
  releaseVersion : String
  subnets : List String
  labels : List (String × String)
deriving Repr, DecidableEq

/-- The `eks.CreateNodegroupInput` payload assembled by the embedded code. -/
structure CreateNodegroupInput where
  amiType : String
  capacityType : String
  nodeRole : String
  instanceTypes : List String
  clusterName : String
  diskSize : Int
  nodegroupName : String
  releaseVersion : Option String
  labels : List (String × String)
  subnets : List String
  scalingDesired : Int
  scalingMin : Int
  scalingMax : Int
deriving Repr, DecidableEq

/-- Embeds `AWSController.getNodeSpecFromDefault`: copy AMI type, capacity
type, role, subnets and release version from the donor, override size,
instance, name and labels from the caller's node spec, scaling fixed at
1/1/1. -/
def getNodeSpecFromDefault (defaultNode : Nodegroup) (clusterName : String)
    (spec : NodeSpecReq) : CreateNodegroupInput :=
  { amiType := defaultNode.amiType
    capacityType := defaultNode.capacityType
    nodeRole := defaultNode.nodeRole
    instanceTypes := [spec.instanceType]
    clusterName := clusterName
    diskSize := spec.diskSize
    nodegroupName := spec.name
    releaseVersion := some defaultNode.releaseVersion
    labels := labelsFromDefault defaultNode.labels spec
    subnets := defaultNode.subnets
    scalingDesired := 1
    scalingMin := 1
    scalingMax := 1 }

/-- The error outcomes of `getDefaultNode`: the two control-flow sentinel
errors and pass-through vendor errors. -/
inductive NodeErr where
  | nodegroupExists
  | noNodegroup
  | vendor (msg : String)
deriving Repr, DecidableEq

/-- Embeds `AWSController.getDefaultNode`: list the cluster's node groups
(vendor errors pass through); with zero node groups return the NoNodegroup
sentinel; if any listed name equals the requested node name return the
NodeGroupExists sentinel; otherwise describe the first listed node group. -/
def getDefaultNode (listRes : Except String (List String))
    (describeNG : String → Except String Nodegroup) (nodeName : String) :
    Except NodeErr Nodegroup :=
  match listRes with
  | Except.error m => Except.error (NodeErr.vendor m)
  | Except.ok names =>
      if names.length = 0 then Except.error NodeErr.noNodegroup
      else if names.any (fun n => n == nodeName) then Except.error NodeErr.nodegroupExists
      else
        match describeNG names.headI with
        | Except.ok ng => Except.ok ng
        | Except.error m => Except.error (NodeErr.vendor m)

/-- The IAM state: the set of role names that exist, as a list. -/
structure IAMState where
  roles : List String
deriving Repr, DecidableEq

/-- Role name constant from the source. -/
def AWS_NODE_GROUP_ROLE_NAME : String := "netbook-AWS-NodeGroupInstanceRole-CAFE"

/-- Managed policy constant from the source. -/
def EKS_WORKER_NODE_POLICY_ARN : String := "arn:aws:iam::aws:policy/AmazonEKSWorkerNodePolicy"

/-- Managed policy constant from the source. -/
def EKS_EC2_CONTAINER_RO_POLICY_ARN : String :=
  "arn:aws:iam::aws:policy/AmazonEC2ContainerRegistryReadOnly"

/-- Managed policy constant from the source. -/
def EKS_CNI_POLICY_ARN : String := "arn:aws:iam::aws:policy/AmazonEKS_CNI_Policy"

/-- Modelled from the spec: `createRoleOrGetExisting` is not under src/.
Section 4.3 of the spec: look the role up by name; if found return it with
wasCreated=false and do not touch policies; if not found create it with the
given trust document and return wasCreated=true. -/
def createRoleOrGetExisting (iam : IAMState) (roleName : String) : IAMState × Bool :=
  if iam.roles.any (fun r => r == roleName) then (iam, false)
  else ({ roles := iam.roles ++ [roleName] }, true)

/-- Result of `getNewNodeGroupSpecFromCluster`: the IAM state afterwards, the
policy-attachment calls issued in order, and the returned value. -/
structure NGSpecOut where
  iam : IAMState
  attaches : List String
  result : Except String CreateNodegroupInput
deriving Repr, DecidableEq

/-- The `eks.CreateNodegroupInput` payload assembled at the end of
`getNewNodeGroupSpecFromCluster`: subnets from the cluster's VPC config, the
GPU or standard AMI depending on `gpuEnabled`, capacity type ON_DEMAND, the
node-group role, and scaling fixed at 1/1/1. -/
def ngInputFromCluster (cluster : Cluster) (clusterName : String)
    (spec : NodeSpecReq) : CreateNodegroupInput :=
  { amiType := if spec.gpuEnabled then "AL2_x86_64_GPU" else "AL2_x86_64"
    capacityType := "ON_DEMAND"
    nodeRole := AWS_NODE_GROUP_ROLE_NAME
    instanceTypes := [spec.instanceType]
    clusterName := clusterName
    diskSize := spec.diskSize
    nodegroupName := spec.name
    releaseVersion := none
    labels := labelsFromCluster spec
    subnets := cluster.subnetIds
    scalingDesired := 1
    scalingMin := 1
    scalingMax := 1 }

/-- Embeds `AWSController.getNewNodeGroupSpecFromCluster`: describe the
cluster (errors pass through), ensure the node-group role, and only when the
role was newly created attach the three managed policies in order, aborting
on the first attachment error; then assemble the create payload.
The policy-attachment vendor outcomes are a parameter `attach`. -/
def getNewNodeGroupSpecFromCluster (describeClusterRes : Except String Cluster)
    (iam : IAMState) (attach : String → Except String Unit)
    (clusterName : String) (spec : NodeSpecReq) : NGSpecOut :=
  match describeClusterRes with
  | Except.error m => { iam := iam, attaches := [], result := Except.error m }
  | Except.ok cluster =>
      let roleOut := createRoleOrGetExisting iam AWS_NODE_GROUP_ROLE_NAME
      let inp : CreateNodegroupInput := ngInputFromCluster cluster clusterName spec
      if roleOut.2 then
        match attach EKS_WORKER_NODE_POLICY_ARN with
        | Except.error m =>
            { iam := roleOut.1, attaches := [EKS_WORKER_NODE_POLICY_ARN],
              result := Except.error m }
        | Except.ok _ =>
            match attach EKS_EC2_CONTAINER_RO_POLICY_ARN with
            | Except.error m =>
                { iam := roleOut.1,
                  attaches := [EKS_WORKER_NODE_POLICY_ARN, EKS_EC2_CONTAINER_RO_POLICY_ARN],
                  result := Except.error m }
            | Except.ok _ =>
                match attach EKS_CNI_POLICY_ARN with
                | Except.error m =>
                    { iam := roleOut.1,
                      attaches := [EKS_WORKER_NODE_POLICY_ARN,
                        EKS_EC2_CONTAINER_RO_POLICY_ARN, EKS_CNI_POLICY_ARN],
                      result := Except.error m }
                | Except.ok _ =>
                    { iam := roleOut.1,
                      attaches := [EKS_WORKER_NODE_POLICY_ARN,
                        EKS_EC2_CONTAINER_RO_POLICY_ARN, EKS_CNI_POLICY_ARN],
                      result := Except.ok inp }
      else { iam := roleOut.1, attaches := [], result := Except.ok inp }

/-- Result of one `AddNode` call: the response and the list of vendor
CreateNodegroup calls issued, each with its input payload (`none` stands for
the nil `*eks.CreateNodegroupInput` pointer). -/
structure AddNodeOut where
  result : GoResult Unit
  createCalls : List (Option CreateNodegroupInput)
deriving Repr, DecidableEq

/-- Embeds the control flow of `AWSController.AddNode` after session setup:
on the NodeGroupExists sentinel return the error without a vendor create; on
the NoNodegroup sentinel build the input from the cluster config (errors
pass through, no create issued); on any other `getDefaultNode` error the
`if` block falls through without returning, leaving `newNodeGroupInput` nil,
and CreateNodegroup is called with that nil input; with a donor node group
build the input from the donor.  `fromClusterRes` stands for the outcome of
`getNewNodeGroupSpecFromCluster` and `createNG` for the vendor create. -/
def addNodeGo (listRes : Except String (List String))
    (describeNG : String → Except String Nodegroup)
    (fromClusterRes : Except String CreateNodegroupInput)
    (createNG : Option CreateNodegroupInput → Except String Unit)
    (clusterName : String) (spec : NodeSpecReq) : AddNodeOut :=
  match getDefaultNode listRes describeNG spec.name with
  | Except.error NodeErr.nodegroupExists =>
      { result := GoResult.err "nodegroup already exist", createCalls := [] }
  | Except.error NodeErr.noNodegroup =>
      match fromClusterRes with
      | Except.error m => { result := GoResult.err m, createCalls := [] }
      | Except.ok inp =>
          match createNG (some inp) with
          | Except.error m => { result := GoResult.err m, createCalls := [some inp] }
          | Except.ok _ => { result := GoResult.ok (), createCalls := [some inp] }
  | Except.error (NodeErr.vendor _) =>
      match createNG none with
      | Except.error m => { result := GoResult.err m, createCalls := [none] }
      | Except.ok _ => { result := GoResult.ok (), createCalls := [none] }
  | Except.ok donor =>
      match createNG (some (getNodeSpecFromDefault donor clusterName spec)) with
      | Except.error m =>
          { result := GoResult.err m,
            createCalls := [some (getNodeSpecFromDefault donor clusterName spec)] }
      | Except.ok _ =>
          { result := GoResult.ok (),
            createCalls := [some (getNodeSpecFromDefault donor clusterName spec)] }

/-- The fields of a DescribeNodegroup result read by `GetClusters`:
the optional instance-type slice and the optional disk size. -/
structure NGDescribe where
  instanceTypes : Option (List String)
  diskSize : Option Int
deriving Repr, DecidableEq

/-- A `pb.NodeSpec` entry of the GetClusters response: name, instance type
(empty when absent) and disk size (zero when absent). -/
structure NodeOut where
  name : String
  instanceOut : String
  diskSize : Int
deriving Repr, DecidableEq

/-- Embeds the per-node-group body of the GetClusters loop: on a
DescribeNodegroup error the SDK output's `Nodegroup` field is nil, and the
subsequent read of `nodeGroupDetails.Nodegroup.InstanceTypes` dereferences a
nil pointer; on success, a non-nil `InstanceTypes` is indexed at 0 (which is
out of range when the slice is empty) and a non-nil `DiskSize` is copied. -/
def describeNodeGo (describeRes : Except String NGDescribe) (ngName : String) :
    GoResult NodeOut :=
  match describeRes with
  | Except.error _ => GoResult.crash
  | Except.ok d =>
      match d.instanceTypes with
      | none => GoResult.ok { name := ngName, instanceOut := "", diskSize := d.diskSize.getD 0 }
      | some [] => GoResult.crash
      | some (i :: _) =>
          GoResult.ok { name := ngName, instanceOut := i, diskSize := d.diskSize.getD 0 }

/-- The node-group loop of GetClusters over one cluster's listed names. -/
def collectNodes (describeNG : String → Except String NGDescribe) :
    List String → GoResult (List NodeOut)
  | [] => GoResult.ok []
  | n :: rest =>
      match describeNodeGo (describeNG n) n with
      | GoResult.crash => GoResult.crash
      | GoResult.err m => GoResult.err m
      | GoResult.ok node =>
          match collectNodes describeNG rest with
          | GoResult.ok nodes => GoResult.ok (node :: nodes)
          | GoResult.err m => GoResult.err m
          | GoResult.crash => GoResult.crash

/-- The per-cluster loop of GetClusters: a ListNodegroups error is only
logged and the SDK output struct carries a nil node-group slice, so the
cluster entry is kept with no nodes. -/
def collectClusters (listNGs : String → Except String (List String))
    (describeNG : String → String → Except String NGDescribe) :
    List String → GoResult (List (String × List NodeOut))
  | [] => GoResult.ok []
  | c :: rest =>
      match collectNodes (describeNG c)
          (match listNGs c with
           | Except.error _ => []
           | Except.ok ns => ns) with
      | GoResult.crash => GoResult.crash
      | GoResult.err m => GoResult.err m
      | GoResult.ok nodes =>
          match collectClusters listNGs describeNG rest with
          | GoResult.ok cs => GoResult.ok ((c, nodes) :: cs)
          | GoResult.err m => GoResult.err m
          | GoResult.crash => GoResult.crash

/-- Embeds `AWSController.GetClusters`: a ListClusters error is returned;
otherwise the per-cluster loop runs over the listed cluster names. -/
def getClustersGo (listClustersRes : Except String (List String))
    (listNGs : String → Except String (List String))
    (describeNG : String → String → Except String NGDescribe) :
    GoResult (List (String × List NodeOut)) :=
  match listClustersRes with
  | Except.error m => GoResult.err m
  | Except.ok clusterNames => collectClusters listNGs describeNG clusterNames

/-- Vendor oracle for the C6 evaluation: two clusters. -/
def c6ListClusters : Except String (List String) := Except.ok ["blue", "green"]

/-- Vendor oracle for the C6 evaluation: node groups per cluster. -/
def c6ListNGs (c : String) : Except String (List String) :=
  if c == "blue" then Except.ok ["ngA", "ngB"] else Except.ok ["ngC"]

/-- Vendor oracle for the C6 evaluation: describing ngA of cluster blue
fails; every other describe succeeds with full details. -/
def c6Describe (c ng : String) : Except String NGDescribe :=
  if c == "blue" && ng == "ngA" then Except.error "RequestLimitExceeded"
  else Except.ok { instanceTypes := some ["m5.large"], diskSize := some 20 }

/-- The three provider controllers held by `spawnerService`. -/
inductive ControllerId where
  | aws
  | azure
  | gcp
deriving Repr, DecidableEq

/-- The `ProviderNotFound` format string from the source, applied to the
provider value as `fmt.Errorf` does. -/
def ProviderNotFoundFmt (provider : String) : String :=
  "provider not found, must be one of [\x27aws\x27, \x27azure\x27], got " ++ provider

/-- Embeds `spawnerService.controller`: the switch over the provider
string. -/
def controller (provider : String) : Except String ControllerId :=
  if provider = "aws" then Except.ok ControllerId.aws
  else if provider = "azure" then Except.ok ControllerId.azure
  else if provider = "gcp" then Except.ok ControllerId.gcp
  else Except.error (ProviderNotFoundFmt provider)

/-- Embeds the dispatch pattern shared by every `spawnerService` operation:
resolve the controller, return its error without invoking anything
otherwise run the operation on the resolved controller. -/
def dispatch {α : Type} (provider : String) (run : ControllerId → α) : Except String α :=
  match controller provider with
  | Except.error e => Except.error e
  | Except.ok c => Except.ok (run c)

/-- The `pb.ClusterStatusResponse` fields written by the embedded code. -/
structure ClusterStatusResponse where
  status : String
  error : String
deriving Repr, DecidableEq

/-- The `pb.ClusterDeleteResponse` / `pb.NodeDeleteResponse` error field. -/
structure DeleteResponse where
  error : String
deriving Repr, DecidableEq

/-- Embeds `AWSController.ClusterStatus` after session setup: on a describe
error return a response carrying the error message together with the non-nil
transport error; on success return the mapped status with a nil error. -/
def clusterStatusGo (describeRes : Except String Cluster) :
    ClusterStatusResponse × Option String :=
  match describeRes with
  | Except.error e => ({ status := "", error := e }, some e)
  | Except.ok c => ({ status := c.status, error := "" }, none)

/-- Embeds `AWSController.DeleteCluster` after session setup, parametrised by
the vendor delete outcome (the success value is the status string that is
only logged). -/
def deleteClusterGo (deleteRes : Except String String) : DeleteResponse × Option String :=
  match deleteRes with
  | Except.error e => ({ error := e }, some e)
  | Except.ok _ => ({ error := "" }, none)

/-- Embeds `AWSController.DeleteNode` after session setup, parametrised by
the vendor delete outcome. -/
def deleteNodeGo (deleteRes : Except String String) : DeleteResponse × Option String :=
  match deleteRes with
  | Except.error e => ({ error := e }, some e)
  | Except.ok _ => ({ error := "" }, none)

/-- Concrete node spec for the C2 evaluation: caller labels b and c, in that
iteration order. -/
def specC2 : NodeSpecReq :=
  { name := "n1", instanceType := "m5.xlarge", diskSize := 20, gpuEnabled := false,
    labels := [("b", "9"), ("c", "3")] }

/-- Concrete node spec for the C3 witness: requested name gpu-pool. -/
def specC3 : NodeSpecReq :=
  { name := "gpu-pool", instanceType := "p2.xlarge", diskSize := 100, gpuEnabled := true,
    labels := [] }

/-- Concrete node spec for the C4 evaluation. -/
def specC4 : NodeSpecReq :=
  { name := "ng-new", instanceType := "m5.large", diskSize := 20, gpuEnabled := false,
    labels := [] }

/-- Concrete node spec for the C5 witness. -/
def specC5 : NodeSpecReq :=
  { name := "ng-five", instanceType := "c5.large", diskSize := 40, gpuEnabled := false,
    labels := [] }

/-- Concrete cluster descriptor for the C5 witness. -/
def clusterC5 : Cluster :=
  { name := "c5cluster", status := "ACTIVE", subnetIds := ["subnet-1", "subnet-2"] }

theorem find?_append_of_none {α : Type} (p : α → Bool) (l1 l2 : List α)
    (h : l1.find? p = none) : (l1 ++ l2).find? p = l2.find? p := by
  induction l1 with
  | nil => simp
  | cons a t ih =>
      cases hpa : p a with
      | true => rw [List.find?_cons_of_pos _ hpa] at h; exact absurd h (by simp)
      | false =>
          rw [List.find?_cons_of_neg _ (by simp [hpa])] at h
          rw [List.cons_append, List.find?_cons_of_neg _ (by simp [hpa])]
          exact ih h

theorem createClusterInternalModel_name (n : String) :
    (createClusterInternalModel n).name = n := rfl

theorem describeCluster_of_find?_some {s : List Cluster} {n : String} {c : Cluster}
    (h : s.find? (fun x => x.name == n) = some c) :
    describeCluster s n = Except.ok c := by
  unfold describeCluster; rw [h]

theorem describeCluster_of_find?_none {s : List Cluster} {n : String}
    (h : s.find? (fun x => x.name == n) = none) :
    describeCluster s n = Except.error AwsErr.resourceNotFound := by
  unfold describeCluster; rw [h]

theorem describeCluster_ok_name {clusters : List Cluster} {name : String} {c : Cluster}
    (h : describeCluster clusters name = Except.ok c) : c.name = name := by
  unfold describeCluster at h
  cases hf : clusters.find? (fun c => c.name == name) with
  | none => rw [hf] at h; exact absurd h (by simp)
  | some c₀ =>
      rw [hf] at h
      have hp := List.find?_some hf
      simp only [beq_iff_eq] at hp
      have hc : c₀ = c := by injection h with h2
      subst hc
      exact hp

theorem createClusterStep_found {s : List Cluster} {reqName provider region : String}
    {c : Cluster}
    (h : describeCluster s (deriveClusterName reqName provider region) = Except.ok c) :
    createClusterStep s reqName provider region
      = (s, { result := GoResult.ok c.name, creates := 0 }) := by
  simp only [createClusterStep]
  rw [h]
  rfl

theorem createClusterStep_notFound {s : List Cluster} {reqName provider region : String}
    (h : describeCluster s (deriveClusterName reqName provider region)
        = Except.error AwsErr.resourceNotFound) :
    createClusterStep s reqName provider region
      = (s ++ [createClusterInternalModel (deriveClusterName reqName provider region)],
         { result := GoResult.ok (deriveClusterName reqName provider region), creates := 1 }) := by
  simp only [createClusterStep]
  rw [h]
  rfl

/-- Claim C1: calling CreateCluster twice sequentially with identical
(provider, region, name) yields the same cluster name in both responses and
issues at most one vendor create in total; when the cluster is already
present in any state, the call issues no vendor create (no-op success
returning the existing descriptor's name). -/
theorem createCluster_idempotent (s : List Cluster) (reqName provider region : String) :
    (createClusterStep s reqName provider region).2.result
        = GoResult.ok (deriveClusterName reqName provider region) ∧
    ((createClusterStep (createClusterStep s reqName provider region).1
        reqName provider region).2.result
        = GoResult.ok (deriveClusterName reqName provider region) ∧
    ((createClusterStep s reqName provider region).2.creates
        + (createClusterStep (createClusterStep s reqName provider region).1
            reqName provider region).2.creates ≤ 1 ∧
    (∀ c, describeCluster s (deriveClusterName reqName provider region) = Except.ok c →
      (createClusterStep s reqName provider region).2.creates = 0))) := by
  cases hf : s.find? (fun c => c.name == deriveClusterName reqName provider region) with
  | some c =>
      have hok := describeCluster_of_find?_some hf
      have hname : c.name = deriveClusterName reqName provider region :=
        describeCluster_ok_name hok
      have h1 := createClusterStep_found hok
      refine ⟨?_, ?_, ?_, ?_⟩
      · simp [h1, hname]
      · simp [h1, hname]
      · simp [h1]
      · intro c₁ hc
        simp [h1]
  | none =>
      have hnf := describeCluster_of_find?_none hf
      have h1 := createClusterStep_notFound hnf
      have hf2 : (s ++ [createClusterInternalModel (deriveClusterName reqName provider region)]).find?
          (fun c => c.name == deriveClusterName reqName provider region)
          = some (createClusterInternalModel (deriveClusterName reqName provider region)) := by
        rw [find?_append_of_none _ _ _ hf]
        exact List.find?_cons_of_pos _ (by simp [createClusterInternalModel_name])
      have hok2 := describeCluster_of_find?_some hf2
      have h2 := createClusterStep_found hok2
      refine ⟨?_, ?_, ?_, ?_⟩
      · simp [h1]
      · rw [h1]
        simp [h2, createClusterInternalModel_name]
      · rw [h1]
        simp [h2]
      · intro c hc
        rw [hnf] at hc
        exact absurd hc (by simp)

/-- Witness for C1 at a concrete input: with the cluster already present,
the call issues no vendor create. -/
theorem createCluster_idempotent_witness :
    (createClusterStep [createClusterInternalModel "aws-us-east-2"] "" "aws" "us-east-2").2.creates
      = 0 :=
  (createCluster_idempotent [createClusterInternalModel "aws-us-east-2"] "" "aws" "us-east-2").2.2.2
    (createClusterInternalModel "aws-us-east-2") (by rfl)

/-- Claim C7: a CreateCluster request with an empty cluster name derives the
name provider-region, issues the vendor create under that name when no such
cluster exists, and returns that derived name in the response; the created
cluster is afterwards present in the vendor state under the derived name. -/
theorem createCluster_default_name (s : List Cluster) (provider region : String)
    (h : s.find? (fun c => c.name == provider ++ "-" ++ region) = none) :
    (createClusterStep s "" provider region).2.result
        = GoResult.ok (provider ++ "-" ++ region) ∧
    ((createClusterStep s "" provider region).2.creates = 1 ∧
    (createClusterStep s "" provider region).1.find?
        (fun c => c.name == provider ++ "-" ++ region)
        = some (createClusterInternalModel (provider ++ "-" ++ region))) := by
  have hnf : describeCluster s (deriveClusterName "" provider region)
      = Except.error AwsErr.resourceNotFound := describeCluster_of_find?_none h
  have h1 := createClusterStep_notFound hnf
  refine ⟨?_, ?_, ?_⟩
  · simp [h1]
    rfl
  · simp [h1]
  · rw [h1]
    show (s ++ [createClusterInternalModel (provider ++ "-" ++ region)]).find? _ = _
    rw [find?_append_of_none _ _ _ h]
    exact List.find?_cons_of_pos _ (by simp [createClusterInternalModel_name])

/-- Witness for C7 at a concrete input: the scenario from the spec, provider
aws and region us-east-1 with no existing cluster. -/
theorem createCluster_default_name_witness :
    (createClusterStep [] "" "aws" "us-east-1").2.result = GoResult.ok "aws-us-east-1" :=
  (createCluster_default_name [] "aws" "us-east-1" (by rfl)).1

/-- Claim C10: evaluation of the embedded CreateCluster at a describe outcome
whose error code is not ResourceNotFoundException: the code falls through
without returning, leaving the cluster pointer nil, and the final
dereference of the cluster name crashes instead of reading a present
descriptor. -/
theorem createCluster_nil_cluster_deref :
    createClusterGo (Except.error (AwsErr.other "AccessDeniedException"))
        (Except.ok (createClusterInternalModel "demo"))
      = { result := GoResult.crash, creates := 0 } := rfl

/-- Claim C2: evaluation of the label merge built by `getNodeSpecFromDefault`
at donor labels a=1, b=2 and caller labels b=9, c=3 (iterated in that
order).  Because every caller binding stores a pointer to the one loop
variable, both b and c render as the last iterated caller value 3 instead of
keeping their own values, so the claimed result b=9 does not hold; the donor
label a and the system creator label are merged as claimed. -/
theorem labelMerge_loop_aliasing :
    lookupLabel (labelsFromDefault [("a", "1"), ("b", "2")] specC2) "a" = some "1"
      ∧ lookupLabel (labelsFromDefault [("a", "1"), ("b", "2")] specC2) "b" = some "3"
      ∧ lookupLabel (labelsFromDefault [("a", "1"), ("b", "2")] specC2) "c" = some "3"
      ∧ lookupLabel (labelsFromDefault [("a", "1"), ("b", "2")] specC2) CREATOR_LABEL
          = some SPAWNER_SERVICE_LABEL := by decide

/-- Claim C3: AddNode on a cluster that already has a node group named
exactly the requested node name fails with the NodeGroupExists error and
issues no vendor CreateNodegroup call. -/
theorem addNode_nodegroup_exists (listRes : Except String (List String))
    (names : List String) (describeNG : String → Except String Nodegroup)
    (fromClusterRes : Except String CreateNodegroupInput)
    (createNG : Option CreateNodegroupInput → Except String Unit)
    (clusterName : String) (spec : NodeSpecReq)
    (h1 : listRes = Except.ok names) (h2 : spec.name ∈ names) :
    addNodeGo listRes describeNG fromClusterRes createNG clusterName spec
      = { result := GoResult.err "nodegroup already exist", createCalls := [] } := by
  subst h1
  have hne : ¬ names.length = 0 := by
    intro h0
    exact List.ne_nil_of_mem h2 (List.length_eq_zero.mp h0)
  have hany : names.any (fun n => n == spec.name) = true :=
    List.any_eq_true.mpr ⟨spec.name, h2, by simp⟩
  have hd : getDefaultNode (Except.ok names) describeNG spec.name
      = Except.error NodeErr.nodegroupExists := by
    simp only [getDefaultNode]
    rw [if_neg hne, if_pos hany]
  simp only [addNodeGo, hd]

/-- Witness for C3 at a concrete input: the gpu-pool scenario from the
spec. -/
theorem addNode_nodegroup_exists_witness :
    addNodeGo (Except.ok ["gpu-pool"]) (fun _ => Except.error "unused")
        (Except.error "unused") (fun _ => Except.ok ()) "democluster" specC3
      = { result := GoResult.err "nodegroup already exist", createCalls := [] } :=
  addNode_nodegroup_exists (Except.ok ["gpu-pool"]) ["gpu-pool"]
    (fun _ => Except.error "unused") (Except.error "unused") (fun _ => Except.ok ())
    "democluster" specC3 rfl (by decide)

/-- Claim C4: evaluation of the embedded AddNode at a ListNodegroups outcome
that is a vendor error other than the two sentinels: the error branch falls
through without returning, CreateNodegroup is issued with the nil input, and
when the vendor accepts it the call even reports success — the vendor error
is neither returned to the caller nor wrapped. -/
theorem addNode_swallows_vendor_error :
    addNodeGo (Except.error "AccessDeniedException") (fun _ => Except.error "unused")
        (Except.error "unused") (fun _ => Except.ok ()) "democluster2" specC4
      = { result := GoResult.ok (), createCalls := [none] } := rfl

/-- Claim C5: in the no-node-group path the node-group role is looked up by
name and created only if absent; the three managed-policy attachments are
issued, in order and each exactly once, only when the role was newly created
in the same call; a pre-existing role's policy set is never touched; and any
policy-attachment failure aborts node-group creation with that error. -/
theorem nodeGroupRole_policies (iam : IAMState) (attach : String → Except String Unit)
    (clusterName : String) (spec : NodeSpecReq) (cluster : Cluster) :
    (iam.roles.any (fun r => r == AWS_NODE_GROUP_ROLE_NAME) = true →
        getNewNodeGroupSpecFromCluster (Except.ok cluster) iam attach clusterName spec
          = { iam := iam, attaches := [],
              result := Except.ok (ngInputFromCluster cluster clusterName spec) })
    ∧ (iam.roles.any (fun r => r == AWS_NODE_GROUP_ROLE_NAME) = false →
        ((attach EKS_WORKER_NODE_POLICY_ARN = Except.ok () →
            attach EKS_EC2_CONTAINER_RO_POLICY_ARN = Except.ok () →
            attach EKS_CNI_POLICY_ARN = Except.ok () →
            getNewNodeGroupSpecFromCluster (Except.ok cluster) iam attach clusterName spec
              = { iam := { roles := iam.roles ++ [AWS_NODE_GROUP_ROLE_NAME] },
                  attaches := [EKS_WORKER_NODE_POLICY_ARN, EKS_EC2_CONTAINER_RO_POLICY_ARN,
                    EKS_CNI_POLICY_ARN],
                  result := Except.ok (ngInputFromCluster cluster clusterName spec) })
          ∧ (∀ m, attach EKS_WORKER_NODE_POLICY_ARN = Except.error m →
              getNewNodeGroupSpecFromCluster (Except.ok cluster) iam attach clusterName spec
                = { iam := { roles := iam.roles ++ [AWS_NODE_GROUP_ROLE_NAME] },
                    attaches := [EKS_WORKER_NODE_POLICY_ARN],
                    result := Except.error m })
          ∧ (∀ m, attach EKS_WORKER_NODE_POLICY_ARN = Except.ok () →
              attach EKS_EC2_CONTAINER_RO_POLICY_ARN = Except.error m →
              getNewNodeGroupSpecFromCluster (Except.ok cluster) iam attach clusterName spec
                = { iam := { roles := iam.roles ++ [AWS_NODE_GROUP_ROLE_NAME] },
                    attaches := [EKS_WORKER_NODE_POLICY_ARN, EKS_EC2_CONTAINER_RO_POLICY_ARN],
                    result := Except.error m })
          ∧ (∀ m, attach EKS_WORKER_NODE_POLICY_ARN = Except.ok () →
              attach EKS_EC2_CONTAINER_RO_POLICY_ARN = Except.ok () →
              attach EKS_CNI_POLICY_ARN = Except.error m →
              getNewNodeGroupSpecFromCluster (Except.ok cluster) iam attach clusterName spec
                = { iam := { roles := iam.roles ++ [AWS_NODE_GROUP_ROLE_NAME] },
                    attaches := [EKS_WORKER_NODE_POLICY_ARN, EKS_EC2_CONTAINER_RO_POLICY_ARN,
                      EKS_CNI_POLICY_ARN],
                    result := Except.error m }))) := by
  constructor
  · intro hFound
    simp [getNewNodeGroupSpecFromCluster, createRoleOrGetExisting, hFound]
  · intro hAbsent
    refine ⟨?_, ?_, ?_, ?_⟩
    · intro hW hC hN
      simp [getNewNodeGroupSpecFromCluster, createRoleOrGetExisting, hAbsent, hW, hC, hN]
    · intro m hW
      simp [getNewNodeGroupSpecFromCluster, createRoleOrGetExisting, hAbsent, hW]
    · intro m hW hC
      simp [getNewNodeGroupSpecFromCluster, createRoleOrGetExisting, hAbsent, hW, hC]
    · intro m hW hC hN
      simp [getNewNodeGroupSpecFromCluster, createRoleOrGetExisting, hAbsent, hW, hC, hN]

/-- Witness for C5 at a concrete input: role absent and every attachment
succeeding, so the role is created and the three policies are attached in
order. -/
theorem nodeGroupRole_policies_witness :
    getNewNodeGroupSpecFromCluster (Except.ok clusterC5) { roles := [] }
        (fun _ => Except.ok ()) "c5cluster" specC5
      = { iam := { roles := [AWS_NODE_GROUP_ROLE_NAME] },
          attaches := [EKS_WORKER_NODE_POLICY_ARN, EKS_EC2_CONTAINER_RO_POLICY_ARN,
            EKS_CNI_POLICY_ARN],
          result := Except.ok (ngInputFromCluster clusterC5 "c5cluster" specC5) } :=
  (((nodeGroupRole_policies { roles := [] } (fun _ => Except.ok ()) "c5cluster" specC5
      clusterC5).2 rfl).1) rfl rfl rfl

/-- Claim C6: evaluation of the embedded GetClusters at a vendor oracle
where describing one node group of one cluster fails: instead of omitting
that node group and returning every other cluster's details, the nil
`Nodegroup` field of the failed describe is dereferenced and the whole
listing crashes. -/
theorem getClusters_crash_on_detail_failure :
    getClustersGo c6ListClusters c6ListNGs c6Describe = GoResult.crash := rfl

/-- Claim C8: the provider strings aws, azure and gcp resolve to their
respective controllers, and any other provider string fails the dispatched
operation with the ProviderNotFound message format, independently of the
controllers (no controller is reached). -/
theorem provider_dispatch (p : String) (α : Type) (run runAlt : ControllerId → α)
    (h1 : p ≠ "aws") (h2 : p ≠ "azure") (h3 : p ≠ "gcp") :
    controller "aws" = Except.ok ControllerId.aws
      ∧ controller "azure" = Except.ok ControllerId.azure
      ∧ controller "gcp" = Except.ok ControllerId.gcp
      ∧ dispatch p run = Except.error (ProviderNotFoundFmt p)
      ∧ dispatch p run = dispatch p runAlt := by
  refine ⟨rfl, rfl, rfl, ?_, ?_⟩ <;> simp [dispatch, controller, h1, h2, h3]

/-- Witness for C8 at a concrete input: an unknown provider string fails
with the ProviderNotFound message. -/
theorem provider_dispatch_witness :
    dispatch "digitalocean" (fun c => c) = Except.error (ProviderNotFoundFmt "digitalocean") :=
  (provider_dispatch "digitalocean" ControllerId (fun c => c) (fun _ => ControllerId.aws)
      (by decide) (by decide) (by decide)).2.2.2.1

/-- Claim C9: ClusterStatus, DeleteCluster and DeleteNode signal failure
dually and consistently: on a vendor error the response's error field
carries the error's message and the transport error is non-nil; on success
the error field is empty and the transport error is nil. -/
theorem dual_error_signaling (e : String) (c : Cluster) (st : String) :
    clusterStatusGo (Except.error e) = ({ status := "", error := e }, some e)
      ∧ clusterStatusGo (Except.ok c) = ({ status := c.status, error := "" }, none)
      ∧ deleteClusterGo (Except.error e) = ({ error := e }, some e)
      ∧ deleteClusterGo (Except.ok st) = ({ error := "" }, none)
      ∧ deleteNodeGo (Except.error e) = ({ error := e }, some e)
      ∧ deleteNodeGo (Except.ok st) = ({ error := "" }, none) :=
  ⟨rfl, rfl, rfl, rfl, rfl, rfl⟩

end Spawner
